import Mathlib

/-!
Shallow embedding of the virtual try-on repository's landmark pipeline:
the landmark smoother, pose estimator (confidence, bounding rect, head
pose) from face-targating.js, and the overlay transform engine
(updateGlasses, 3D-model path and flat-PNG path) from glasses-models.js,
together with the per-cycle detection step from the main application file.

Numbers are modelled as exact rationals; the transcendental outputs of
Math.atan2 and Math.sqrt are modelled over the reals.
-/

/-- A detector landmark: normalized x, y and an optional relative depth z
(the source treats a missing z as 0 via the expression z || 0). -/
structure Landmark where
  x : ℚ
  y : ℚ
  z : Option ℚ
deriving DecidableEq

/-- One blended landmark of LandmarkUtils.smoothLandmarks:
previous * a + current * (1 - a) per coordinate, missing z read as 0. -/
def blendLandmark (a : ℚ) (previous current : Landmark) : Landmark :=
  { x := previous.x * a + current.x * (1 - a)
    y := previous.y * a + current.y * (1 - a)
    z := some ((previous.z.getD 0) * a + (current.z.getD 0) * (1 - a)) }

/-- The indexed loop of smoothLandmarks: walk the current frame; while the
previous frame still has an entry at the index, blend, otherwise push the
current landmark through unchanged. -/
def smoothPair (a : ℚ) : List Landmark → List Landmark → List Landmark
  | [], _ => []
  | current :: cs, [] => current :: cs
  | current :: cs, previous :: ps => blendLandmark a previous current :: smoothPair a cs ps

/-- LandmarkUtils.smoothLandmarks(currentLandmarks, previousLandmarks,
smoothingFactor): returns the current frame unchanged when no previous
frame exists, otherwise blends index by index.  The source declares the
default smoothingFactor = 0.7 (and its one caller passes 0.7 explicitly). -/
def smoothLandmarks (currentLandmarks : List Landmark)
    (previousLandmarks : Option (List Landmark)) (smoothingFactor : ℚ) : List Landmark :=
  match previousLandmarks with
  | none => currentLandmarks
  | some prev => smoothPair smoothingFactor currentLandmarks prev

/-- The fixed feature indices checked by calculateConfidence:
eye outer corners 33, 263, nose tip 1, nose bridge 9. -/
def keyIndices : List Nat := [33, 263, 1, 9]

/-- The per-landmark test of calculateConfidence: the landmark is present
and its x and y both lie within [0, 1]. -/
def isValidLandmark : Option Landmark → Bool
  | some landmark =>
      decide (0 ≤ landmark.x) && decide (landmark.x ≤ 1) &&
      decide (0 ≤ landmark.y) && decide (landmark.y ≤ 1)
  | none => false

/-- FaceTracker.calculateConfidence: 0 on a missing/empty frame, otherwise
the count of valid key landmarks divided by the number checked. -/
def calculateConfidence (landmarks : List Landmark) : ℚ :=
  if landmarks.length = 0 then 0
  else (keyIndices.countP (fun i => isValidLandmark landmarks[i]?) : ℚ) /
    (keyIndices.length : ℚ)

/-- The face bounding rectangle produced by calculateFaceRect. -/
structure FaceRect where
  x : ℚ
  y : ℚ
  width : ℚ
  height : ℚ
  centerX : ℚ
  centerY : ℚ
deriving DecidableEq

/-- FaceTracker.calculateFaceRect: null on a missing/empty frame, otherwise
the running min/max scan of x and y started from minX = minY = 1 and
maxX = maxY = 0, packaged as a rect with centers. -/
def calculateFaceRect (landmarks : List Landmark) : Option FaceRect :=
  if landmarks.length = 0 then none
  else
    let minX := landmarks.foldl (fun acc l => min acc l.x) 1
    let minY := landmarks.foldl (fun acc l => min acc l.y) 1
    let maxX := landmarks.foldl (fun acc l => max acc l.x) 0
    let maxY := landmarks.foldl (fun acc l => max acc l.y) 0
    some { x := minX, y := minY, width := maxX - minX, height := maxY - minY
           centerX := (minX + maxX) / 2, centerY := (minY + maxY) / 2 }

/-- The JavaScript Math.atan2(y, x) function over ideal reals. -/
noncomputable def atan2 (y x : ℝ) : ℝ :=
  if 0 < x then Real.arctan (y / x)
  else if x = 0 then
    if 0 < y then Real.pi / 2
    else if y < 0 then -(Real.pi / 2)
    else 0
  else
    if 0 ≤ y then Real.arctan (y / x) + Real.pi
    else Real.arctan (y / x) - Real.pi

/-- The three key landmarks consumed by calculateHeadPose. -/
structure KeyLandmarks where
  leftEyeCenter : Option Landmark
  rightEyeCenter : Option Landmark
  noseTip : Option Landmark

/-- The head pose angles produced by calculateHeadPose. -/
structure HeadPose where
  pitch : ℝ
  yaw : ℝ
  roll : ℝ

/-- FaceTracker.calculateHeadPose: zeros if the left eye center, right eye
center or nose tip is absent; otherwise roll = atan2 of the eye deltas,
yaw = atan2(nose x offset from the eye center, 0.1) and
pitch = atan2(nose y offset from the eye center, 0.1). -/
noncomputable def calculateHeadPose (keyLandmarks : KeyLandmarks) : HeadPose :=
  match keyLandmarks.leftEyeCenter, keyLandmarks.rightEyeCenter, keyLandmarks.noseTip with
  | some leftEye, some rightEye, some nose =>
    let eyeDeltaX := rightEye.x - leftEye.x
    let eyeDeltaY := rightEye.y - leftEye.y
    let roll := atan2 (eyeDeltaY : ℝ) (eyeDeltaX : ℝ)
    let eyeCenterX := (leftEye.x + rightEye.x) / 2
    let noseOffsetX := nose.x - eyeCenterX
    let yaw := atan2 (noseOffsetX : ℝ) 0.1
    let eyeCenterY := (leftEye.y + rightEye.y) / 2
    let noseOffsetY := nose.y - eyeCenterY
    let pitch := atan2 (noseOffsetY : ℝ) 0.1
    { pitch := pitch, yaw := yaw, roll := roll }
  | _, _, _ => { pitch := 0, yaw := 0, roll := 0 }

/-- A point in the orthographic world space of the renderer. -/
structure WorldPoint where
  x : ℚ
  y : ℚ
  z : ℚ
deriving DecidableEq

/-- GlassesRenderer.normalizedToWorld: the fixed orthographic mapping with
frustumSize = 2 and aspect = canvasWidth / canvasHeight; missing z read
as 0. -/
def normalizedToWorld (landmark : Landmark) (canvasWidth canvasHeight : ℚ) : WorldPoint :=
  let aspect := canvasWidth / canvasHeight
  let frustumSize : ℚ := 2
  { x := (landmark.x - 0.5) * frustumSize * aspect
    y := -(landmark.y - 0.5) * frustumSize
    z := landmark.z.getD 0 }

/-- The user-adjustable Overlay Parameters held by the renderer
(this.scale, this.width, this.heightOffset). -/
structure OverlayParams where
  scale : ℚ
  width : ℚ
  heightOffset : ℚ

/-- The placement written to the 3D glasses model by updateGlasses:
position.set(centerX, centerY, 0), rotation.z, and the uniform scale. -/
structure ModelTransform where
  posX : ℚ
  posY : ℚ
  posZ : ℚ
  rotZ : ℝ
  scale : ℚ

/-- The 3D-model branch of GlassesRenderer.updateGlasses (the code after
the PNG branch): look up landmarks 33 and 263, return without any update
when either is absent, otherwise convert both to world space and produce
the center/angle/scale written to the model. -/
noncomputable def updateGlasses3D (landmarks : List Landmark) (p : OverlayParams)
    (canvasWidth canvasHeight : ℚ) : Option ModelTransform :=
  match landmarks[33]?, landmarks[263]? with
  | some leftEye, some rightEye =>
    let leftEyeWorld := normalizedToWorld leftEye canvasWidth canvasHeight
    let rightEyeWorld := normalizedToWorld rightEye canvasWidth canvasHeight
    let centerX := (leftEyeWorld.x + rightEyeWorld.x) / 2
    let centerY := (leftEyeWorld.y + rightEyeWorld.y) / 2 + p.heightOffset * 0.001
    let eyeDistance := |rightEyeWorld.x - leftEyeWorld.x|
    let baseScale := eyeDistance * 0.8
    let finalScale := baseScale * p.scale * p.width
    let angle := atan2 ((rightEyeWorld.y - leftEyeWorld.y : ℚ) : ℝ)
      ((rightEyeWorld.x - leftEyeWorld.x : ℚ) : ℝ)
    some { posX := centerX, posY := centerY, posZ := 0, rotZ := angle, scale := finalScale }
  | _, _ => none

/-- The axis-aligned destination rectangle handed to ctx.drawImage by the
PNG branch of updateGlasses: top-left corner (dx, dy) and size (dw, dh).
The 2D canvas API draws this rectangle unrotated. -/
structure PngDraw where
  dx : ℝ
  dy : ℝ
  dw : ℝ
  dh : ℝ

/-- The PNG branch of GlassesRenderer.updateGlasses: the canvas is cleared,
then if either eye landmark is absent nothing is drawn (result none);
otherwise both eyes are converted to world space, the width is the
Euclidean world-space eye distance * 2.5 * scale, the height follows the
image's own height/width ratio, and the rectangle is centered at the
world-space eye midpoint shifted by half the canvas size. -/
noncomputable def updateGlassesPNG (landmarks : List Landmark) (scale : ℚ)
    (imageWidth imageHeight : ℚ) (canvasWidth canvasHeight : ℚ) : Option PngDraw :=
  match landmarks[33]?, landmarks[263]? with
  | some leftEye, some rightEye =>
    let left := normalizedToWorld leftEye canvasWidth canvasHeight
    let right := normalizedToWorld rightEye canvasWidth canvasHeight
    let eyeDistance : ℝ :=
      Real.sqrt (((right.x - left.x : ℚ) : ℝ) ^ 2 + ((right.y - left.y : ℚ) : ℝ) ^ 2)
    let glassesWidth : ℝ := eyeDistance * 2.5 * (scale : ℝ)
    let glassesHeight : ℝ := ((imageHeight / imageWidth : ℚ) : ℝ) * glassesWidth
    let centerX : ℝ := ((left.x + right.x) / 2 + canvasWidth / 2 : ℚ)
    let centerY : ℝ := ((left.y + right.y) / 2 + canvasHeight / 2 : ℚ)
    some { dx := centerX - glassesWidth / 2, dy := centerY - glassesHeight / 2
           dw := glassesWidth, dh := glassesHeight }
  | _, _ => none

/-- The mutable state of the rendered 3D model that updateGlasses writes:
its current transform and visibility. -/
structure ModelState where
  transform : ModelTransform
  visible : Bool

/-- The effect of one updateGlasses call (3D path) on the model state: an
early return leaves the state untouched, otherwise the new transform is
written and the model made visible. -/
noncomputable def stepGlassesModel (st : ModelState) (landmarks : List Landmark)
    (p : OverlayParams) (canvasWidth canvasHeight : ℚ) : ModelState :=
  match updateGlasses3D landmarks p canvasWidth canvasHeight with
  | none => st
  | some t => { transform := t, visible := true }

/-- VirtualTryOnApp.onFaceDetected, reduced to its data flow: given the
smoothing flag, the stored previousLandmarks and the detection results
(null on a no-face cycle), return the new previousLandmarks and the frame
passed on to updateGlasses (none when no call is made).  A null result
returns immediately, leaving the stored state untouched. -/
def onFaceDetectedStep (smoothingEnabled : Bool) (previousLandmarks : Option (List Landmark))
    (results : Option (List Landmark)) : Option (List Landmark) × Option (List Landmark) :=
  match results with
  | none => (previousLandmarks, none)
  | some lms =>
    let lms :=
      match smoothingEnabled, previousLandmarks with
      | true, some prev => smoothLandmarks lms (some prev) 0.7
      | _, _ => lms
    (some lms, some lms)

/-- Written from the spec's words, for comparison with the source: the
distance between the two converted eye points (Euclidean, in world
space), as used in the sentence "Scale = (distance between the two
converted eye points) x a fixed base factor (0.8) x scale parameter x
width parameter". -/
noncomputable def specEyeDistanceWorld (leftEye rightEye : Landmark)
    (canvasWidth canvasHeight : ℚ) : ℝ :=
  Real.sqrt
    ((((normalizedToWorld rightEye canvasWidth canvasHeight).x -
        (normalizedToWorld leftEye canvasWidth canvasHeight).x : ℚ) : ℝ) ^ 2 +
     (((normalizedToWorld rightEye canvasWidth canvasHeight).y -
        (normalizedToWorld leftEye canvasWidth canvasHeight).y : ℚ) : ℝ) ^ 2)

/-- Written from the spec's words, for comparison with the source: the eye
midpoint expressed in pixel coordinates (normalized midpoint scaled by the
canvas size), x coordinate. -/
def specPixelMidX (leftEye rightEye : Landmark) (canvasWidth : ℚ) : ℚ :=
  (leftEye.x + rightEye.x) / 2 * canvasWidth

/-- Scale component of an optional model transform (0 when absent). -/
def mtScale : Option ModelTransform → ℚ
  | some t => t.scale
  | none => 0

/-- Rotation component of an optional model transform (0 when absent). -/
noncomputable def mtRot : Option ModelTransform → ℝ
  | some t => t.rotZ
  | none => 0

/-- Horizontal center of an optional PNG draw rectangle (0 when absent). -/
noncomputable def pngCenterX : Option PngDraw → ℝ
  | some d => d.dx + d.dw / 2
  | none => 0

/-- Left eye landmark of the spec's end-to-end scenario, normalized (0.4, 0.5). -/
def egL : Landmark := { x := 0.4, y := 0.5, z := none }

/-- Right eye landmark of the spec's end-to-end scenario, normalized (0.6, 0.5). -/
def egR : Landmark := { x := 0.6, y := 0.5, z := none }

/-- A 264-entry frame whose landmark 33 is egL and landmark 263 is egR. -/
def egFrame : List Landmark := List.replicate 263 egL ++ [egR]

/-- Eye landmark at the top-left image corner, used to exercise unequal
eye heights. -/
def diagL : Landmark := { x := 0, y := 0, z := none }

/-- Eye landmark at the bottom-right image corner. -/
def diagR : Landmark := { x := 1, y := 1, z := none }

/-- A 264-entry frame with landmark 33 = diagL and landmark 263 = diagR:
the two eyes sit on a diagonal, so their world y coordinates differ. -/
def diagFrame : List Landmark := List.replicate 263 diagL ++ [diagR]

/-- The unit-square frame of the spec's bounding-rect test: the four unit
square corners plus an interior point. -/
def unitSquareFrame : List Landmark :=
  [{ x := 0, y := 0, z := none }, { x := 1, y := 0, z := none },
   { x := 0, y := 1, z := none }, { x := 1, y := 1, z := none },
   { x := 0.5, y := 0.5, z := none }]

/-- Eyes for the PNG-path scenario: left at (0.5, 0.5)... -/
def pngL : Landmark := { x := 0.5, y := 0.5, z := none }

/-- ...and right at (0.9, 0.5), so the normalized eye midpoint is at
x = 0.7 while the world-space midpoint sits near the canvas center. -/
def pngR : Landmark := { x := 0.9, y := 0.5, z := none }

/-- A 264-entry frame with landmark 33 = pngL and landmark 263 = pngR. -/
def pngFrame : List Landmark := List.replicate 263 pngL ++ [pngR]

/-- A landmark outside the valid [0,1] range. -/
def badLm : Landmark := { x := 2, y := 2, z := none }

/-- A landmark inside the valid [0,1] range. -/
def goodLm : Landmark := { x := 0.5, y := 0.5, z := none }

/-- A frame where exactly two of the four checked key landmarks (33 and
263) are valid and the other two (1 and 9) are out of range. -/
def twoOfFourFrame : List Landmark :=
  List.replicate 33 badLm ++ [goodLm] ++ List.replicate 229 badLm ++ [goodLm]

/-- A frame whose four checked key landmarks are all valid. -/
def allValidFrame : List Landmark := List.replicate 264 goodLm

theorem smoothPair_getElem (a : ℚ) (cs ps : List Landmark) (i : ℕ) (c p : Landmark)
    (hc : cs[i]? = some c) (hp : ps[i]? = some p) :
    (smoothPair a cs ps)[i]? = some (blendLandmark a p c) := by
  induction cs generalizing ps i with
  | nil => simp at hc
  | cons c0 cs ih =>
    cases ps with
    | nil => simp at hp
    | cons p0 ps =>
      cases i with
      | zero =>
        simp only [List.getElem?_cons_zero, Option.some.injEq] at hc hp
        subst hc; subst hp
        simp [smoothPair]
      | succ n =>
        simp only [List.getElem?_cons_succ] at hc hp
        simpa [smoothPair] using ih ps n hc hp

theorem smoothPair_length (a : ℚ) (cs ps : List Landmark) :
    (smoothPair a cs ps).length = cs.length := by
  induction cs generalizing ps with
  | nil => simp [smoothPair]
  | cons c0 cs ih =>
    cases ps with
    | nil => simp [smoothPair]
    | cons p0 ps => simp [smoothPair, ih]

theorem smoothPair_passthrough (a : ℚ) (cs ps : List Landmark) (i : ℕ) (c : Landmark)
    (hc : cs[i]? = some c) (hp : ps[i]? = none) :
    (smoothPair a cs ps)[i]? = some c := by
  induction cs generalizing ps i with
  | nil => simp at hc
  | cons c0 cs ih =>
    cases ps with
    | nil => simpa [smoothPair] using hc
    | cons p0 ps =>
      cases i with
      | zero => simp at hp
      | succ n =>
        simp only [List.getElem?_cons_succ] at hc hp
        simpa [smoothPair] using ih ps n hc hp

theorem blendLandmark_one (p c : Landmark) (hz : p.z.isSome) : blendLandmark 1 p c = p := by
  obtain ⟨v, hv⟩ := Option.isSome_iff_exists.mp hz
  cases p
  simp only [blendLandmark, Landmark.mk.injEq]
  simp only at hv
  subst hv
  norm_num

theorem blendLandmark_zero (p c : Landmark) (hz : c.z.isSome) : blendLandmark 0 p c = c := by
  obtain ⟨v, hv⟩ := Option.isSome_iff_exists.mp hz
  cases c
  simp only [blendLandmark, Landmark.mk.injEq]
  simp only at hv
  subst hv
  norm_num

theorem smoothPair_one (cs ps : List Landmark) (hlen : cs.length = ps.length)
    (hz : ∀ l ∈ ps, l.z.isSome) : smoothPair 1 cs ps = ps := by
  induction cs generalizing ps with
  | nil =>
    cases ps with
    | nil => rfl
    | cons p0 ps => simp at hlen
  | cons c0 cs ih =>
    cases ps with
    | nil => simp at hlen
    | cons p0 ps =>
      simp only [List.length_cons, Nat.add_right_cancel_iff] at hlen
      have h0 : p0.z.isSome := hz p0 (by simp)
      have hrest : ∀ l ∈ ps, l.z.isSome := fun l hl => hz l (by simp [hl])
      simp [smoothPair, blendLandmark_one p0 c0 h0, ih ps hlen hrest]

theorem smoothPair_zero (cs ps : List Landmark) (hlen : cs.length = ps.length)
    (hz : ∀ l ∈ cs, l.z.isSome) : smoothPair 0 cs ps = cs := by
  induction cs generalizing ps with
  | nil => rfl
  | cons c0 cs ih =>
    cases ps with
    | nil => simp at hlen
    | cons p0 ps =>
      simp only [List.length_cons, Nat.add_right_cancel_iff] at hlen
      have h0 : c0.z.isSome := hz c0 (by simp)
      have hrest : ∀ l ∈ cs, l.z.isSome := fun l hl => hz l (by simp [hl])
      simp [smoothPair, blendLandmark_zero p0 c0 h0, ih ps hlen hrest]

/-- Claim C3: smoothLandmarks(current, null) returns the current frame
unchanged (cold start), and with a previous frame each index is blended
independently, per coordinate, as previous * a + current * (1 - a), a
missing z on either operand being read as 0 before blending (the source
function declares 0.7 as the default smoothing factor). -/
theorem smoothLandmarks_blend_spec :
    (∀ (currentLandmarks : List Landmark) (a : ℚ),
       smoothLandmarks currentLandmarks none a = currentLandmarks) ∧
    (∀ (currentLandmarks previousLandmarks : List Landmark) (a : ℚ) (i : ℕ) (c p : Landmark),
       currentLandmarks[i]? = some c → previousLandmarks[i]? = some p →
       (smoothLandmarks currentLandmarks (some previousLandmarks) a)[i]? =
         some { x := p.x * a + c.x * (1 - a), y := p.y * a + c.y * (1 - a),
                z := some ((p.z.getD 0) * a + (c.z.getD 0) * (1 - a)) }) := by
  constructor
  · intro currentLandmarks a
    rfl
  · intro currentLandmarks previousLandmarks a i c p hc hp
    exact smoothPair_getElem a currentLandmarks previousLandmarks i c p hc hp

/-- Witness for C3 at a concrete input: one-point frames, a = 0.7. -/
theorem smoothLandmarks_blend_inst :
    (smoothLandmarks [{ x := 0, y := 0, z := none }]
      (some [{ x := 1, y := 1, z := some 1 }]) 0.7)[0]? =
        some { x := 0.7, y := 0.7, z := some 0.7 } ∧
    smoothLandmarks [{ x := 0, y := 0, z := none }] none 0.7 =
      [{ x := 0, y := 0, z := none }] := by
  constructor
  · have h := smoothLandmarks_blend_spec.2 [{ x := 0, y := 0, z := none }]
      [{ x := 1, y := 1, z := some 1 }] 0.7 0
      { x := 0, y := 0, z := none } { x := 1, y := 1, z := some 1 } (by simp) (by simp)
    rw [h]
    norm_num
  · exact smoothLandmarks_blend_spec.1 _ 0.7

/-- Claim C9: for equal-length frames whose entries are fully present, each
smoothed x is a convex combination of the two source x values (for any
smoothing factor in [0,1], which includes the default 0.7), and the
degenerate factors 1 and 0 reproduce the previous and the current frame
exactly. -/
theorem smoothLandmarks_convex_spec :
    (∀ (f g : List Landmark) (a : ℚ), f.length = g.length → 0 ≤ a → a ≤ 1 →
       ∀ (i : ℕ) (c p s : Landmark), f[i]? = some c → g[i]? = some p →
         (smoothLandmarks f (some g) a)[i]? = some s →
         min c.x p.x ≤ s.x ∧ s.x ≤ max c.x p.x) ∧
    (∀ (f g : List Landmark), f.length = g.length → (∀ l ∈ g, l.z.isSome) →
       smoothLandmarks f (some g) 1 = g) ∧
    (∀ (f g : List Landmark), f.length = g.length → (∀ l ∈ f, l.z.isSome) →
       smoothLandmarks f (some g) 0 = f) := by
  refine ⟨?_, ?_, ?_⟩
  · intro f g a _ ha ha1 i c p s hc hp hs
    rw [smoothLandmarks] at hs
    rw [smoothPair_getElem a f g i c p hc hp] at hs
    have hsx : s.x = p.x * a + c.x * (1 - a) := by
      cases hs' : hs
      rfl
    have hmin1 : min c.x p.x * a ≤ p.x * a :=
      mul_le_mul_of_nonneg_right (min_le_right _ _) ha
    have hmin2 : min c.x p.x * (1 - a) ≤ c.x * (1 - a) :=
      mul_le_mul_of_nonneg_right (min_le_left _ _) (by linarith)
    have hmineq : min c.x p.x * a + min c.x p.x * (1 - a) = min c.x p.x := by ring
    have hmax1 : p.x * a ≤ max c.x p.x * a :=
      mul_le_mul_of_nonneg_right (le_max_right _ _) ha
    have hmax2 : c.x * (1 - a) ≤ max c.x p.x * (1 - a) :=
      mul_le_mul_of_nonneg_right (le_max_left _ _) (by linarith)
    have hmaxeq : max c.x p.x * a + max c.x p.x * (1 - a) = max c.x p.x := by ring
    constructor
    · rw [hsx]; linarith
    · rw [hsx]; linarith
  · intro f g hlen hz
    exact smoothPair_one f g hlen hz
  · intro f g hlen hz
    exact smoothPair_zero f g hlen hz

/-- Witness for C9 at a concrete input: two-point frames, a = 0.7. -/
theorem smoothLandmarks_convex_inst :
    (min (0 : ℚ) 1 ≤ 0.7 ∧ (0.7 : ℚ) ≤ max 0 1) ∧
    smoothLandmarks [{ x := 0, y := 0, z := some 0 }]
      (some [{ x := 1, y := 1, z := some 1 }]) 1 = [{ x := 1, y := 1, z := some 1 }] ∧
    smoothLandmarks [{ x := 0, y := 0, z := some 0 }]
      (some [{ x := 1, y := 1, z := some 1 }]) 0 = [{ x := 0, y := 0, z := some 0 }] := by
  refine ⟨?_, ?_, ?_⟩
  · have h := smoothLandmarks_convex_spec.1 [{ x := 0, y := 0, z := some 0 }]
      [{ x := 1, y := 1, z := some 1 }] 0.7 (by simp) (by norm_num) (by norm_num)
      0 { x := 0, y := 0, z := some 0 } { x := 1, y := 1, z := some 1 }
      { x := 0.7, y := 0.7, z := some 0.7 } (by simp) (by simp) ?_
    · simpa using h
    · rw [smoothLandmarks]
      rw [smoothPair_getElem 0.7 _ _ 0 { x := 0, y := 0, z := some 0 }
        { x := 1, y := 1, z := some 1 } (by simp) (by simp)]
      norm_num [blendLandmark]
  · exact smoothLandmarks_convex_spec.2.1 _ _ (by simp) (by simp)
  · exact smoothLandmarks_convex_spec.2.2 _ _ (by simp) (by simp)

/-- Claim C10: smoothLandmarks is total: its output always has exactly the
current frame's length, and any index whose previous counterpart is
absent is passed through unsmoothed. -/
theorem smoothLandmarks_total_spec :
    (∀ (cur : List Landmark) (prev : Option (List Landmark)) (a : ℚ),
       (smoothLandmarks cur prev a).length = cur.length) ∧
    (∀ (cur prev : List Landmark) (a : ℚ) (i : ℕ) (c : Landmark),
       cur[i]? = some c → prev[i]? = none →
       (smoothLandmarks cur (some prev) a)[i]? = some c) := by
  constructor
  · intro cur prev a
    cases prev with
    | none => rfl
    | some ps => exact smoothPair_length a cur ps
  · intro cur prev a i c hc hp
    exact smoothPair_passthrough a cur prev i c hc hp

/-- Witness for C10 at a concrete input: the current frame is longer than
the previous one, and the extra index is passed through unchanged. -/
theorem smoothLandmarks_total_inst :
    (smoothLandmarks [{ x := 0, y := 0, z := none }, { x := 3, y := 4, z := none }]
      (some [{ x := 1, y := 1, z := some 1 }]) 0.7).length = 2 ∧
    (smoothLandmarks [{ x := 0, y := 0, z := none }, { x := 3, y := 4, z := none }]
      (some [{ x := 1, y := 1, z := some 1 }]) 0.7)[1]? =
        some { x := 3, y := 4, z := none } := by
  constructor
  · exact smoothLandmarks_total_spec.1 _ _ 0.7
  · exact smoothLandmarks_total_spec.2 _ _ 0.7 1 _ (by simp) (by simp)

theorem atan2_zero_of_pos {x : ℝ} (hx : 0 < x) : atan2 0 x = 0 := by
  simp [atan2, hx, Real.arctan_zero]

theorem atan2_zero_of_neg {x : ℝ} (hx : x < 0) : atan2 0 x = Real.pi := by
  have h1 : ¬ 0 < x := not_lt.mpr hx.le
  have h2 : x ≠ 0 := hx.ne
  simp [atan2, h1, h2, Real.arctan_zero]


theorem isValidLandmark_good : isValidLandmark (some goodLm) = true := by
  norm_num [isValidLandmark, goodLm]

theorem isValidLandmark_bad : isValidLandmark (some badLm) = false := by
  norm_num [isValidLandmark, badLm]

theorem allValidFrame_lookup : ∀ i : ℕ, i < 264 → allValidFrame[i]? = some goodLm := by
  intro i hi
  rw [allValidFrame, List.getElem?_replicate, if_pos hi]

theorem twoOfFourFrame_lookup :
    twoOfFourFrame[1]? = some badLm ∧ twoOfFourFrame[9]? = some badLm ∧
    twoOfFourFrame[33]? = some goodLm ∧ twoOfFourFrame[263]? = some goodLm := by
  have hlen1 : (List.replicate 33 badLm).length = 33 := List.length_replicate 33 badLm
  have hlen2 : (List.replicate 33 badLm ++ [goodLm]).length = 34 := by
    simp only [List.length_append, hlen1, List.length_cons, List.length_nil]
  have hlen3 : ((List.replicate 33 badLm ++ [goodLm]) ++ List.replicate 229 badLm).length = 263 := by
    simp only [List.length_append, hlen2, List.length_replicate]
  have hfirst : ∀ i : ℕ, i < 33 → twoOfFourFrame[i]? = some badLm := by
    intro i hi
    rw [twoOfFourFrame]
    rw [List.getElem?_append_left (by omega : i < ((List.replicate 33 badLm ++ [goodLm]) ++ List.replicate 229 badLm).length)]
    rw [List.getElem?_append_left (by omega : i < (List.replicate 33 badLm ++ [goodLm]).length)]
    rw [List.getElem?_append_left (by omega : i < (List.replicate 33 badLm).length)]
    rw [List.getElem?_replicate, if_pos hi]
  refine ⟨hfirst 1 (by norm_num), hfirst 9 (by norm_num), ?_, ?_⟩
  · rw [twoOfFourFrame]
    rw [List.getElem?_append_left (by omega : 33 < ((List.replicate 33 badLm ++ [goodLm]) ++ List.replicate 229 badLm).length)]
    rw [List.getElem?_append_left (by omega : 33 < (List.replicate 33 badLm ++ [goodLm]).length)]
    rw [List.getElem?_append_right (by omega : (List.replicate 33 badLm).length ≤ 33)]
    rw [hlen1]
    simp only [Nat.sub_self, List.getElem?_cons_zero]
  · rw [twoOfFourFrame]
    rw [List.getElem?_append_right (by omega : ((List.replicate 33 badLm ++ [goodLm]) ++ List.replicate 229 badLm).length ≤ 263)]
    rw [hlen3]
    simp only [Nat.sub_self, List.getElem?_cons_zero]

/-- Claim C7: calculateConfidence checks exactly the indices 33, 263, 1, 9
and returns the fraction of them whose landmark has x and y inside [0,1]:
all four valid gives 1, all four invalid gives 0, and the concrete
two-of-four frame gives 0.5. -/
theorem calculateConfidence_spec :
    keyIndices = [33, 263, 1, 9] ∧
    (∀ landmarks : List Landmark, calculateConfidence landmarks =
       (([33, 263, 1, 9] : List ℕ).countP (fun i => isValidLandmark landmarks[i]?) : ℚ) / 4) ∧
    (∀ landmarks : List Landmark,
       (∀ i ∈ keyIndices, isValidLandmark landmarks[i]? = true) →
       calculateConfidence landmarks = 1) ∧
    (∀ landmarks : List Landmark,
       (∀ i ∈ keyIndices, isValidLandmark landmarks[i]? = false) →
       calculateConfidence landmarks = 0) ∧
    calculateConfidence twoOfFourFrame = 0.5 := by
  have hformula : ∀ landmarks : List Landmark, calculateConfidence landmarks =
      (([33, 263, 1, 9] : List ℕ).countP (fun i => isValidLandmark landmarks[i]?) : ℚ) / 4 := by
    intro landmarks
    by_cases h : landmarks.length = 0
    · have hnil : landmarks = [] := List.length_eq_zero.mp h
      subst hnil
      simp [calculateConfidence, List.countP_cons, List.countP_nil, isValidLandmark]
    · rw [calculateConfidence, if_neg h, keyIndices]
      norm_num
  refine ⟨rfl, hformula, ?_, ?_, ?_⟩
  · intro landmarks hv
    have h33 := hv 33 (by simp [keyIndices])
    have h263 := hv 263 (by simp [keyIndices])
    have h1 := hv 1 (by simp [keyIndices])
    have h9 := hv 9 (by simp [keyIndices])
    rw [hformula]
    simp only [List.countP_cons, List.countP_nil, h33, h263, h1, h9]
    norm_num
  · intro landmarks hv
    have h33 := hv 33 (by simp [keyIndices])
    have h263 := hv 263 (by simp [keyIndices])
    have h1 := hv 1 (by simp [keyIndices])
    have h9 := hv 9 (by simp [keyIndices])
    rw [hformula]
    simp only [List.countP_cons, List.countP_nil, h33, h263, h1, h9]
    norm_num
  · obtain ⟨e1, e9, e33, e263⟩ := twoOfFourFrame_lookup
    rw [hformula]
    simp only [List.countP_cons, List.countP_nil, e1, e9, e33, e263,
      isValidLandmark_good, isValidLandmark_bad]
    norm_num

/-- Witness for C7 at concrete inputs: the all-valid frame scores 1 and the
empty frame (all four checks fail) scores 0. -/
theorem calculateConfidence_inst :
    calculateConfidence allValidFrame = 1 ∧ calculateConfidence [] = 0 := by
  constructor
  · refine calculateConfidence_spec.2.2.1 allValidFrame ?_
    intro i hi
    simp only [keyIndices, List.mem_cons, List.not_mem_nil, or_false] at hi
    rcases hi with rfl | rfl | rfl | rfl <;>
      rw [allValidFrame_lookup _ (by norm_num)] <;> exact isValidLandmark_good
  · refine calculateConfidence_spec.2.2.2.1 [] ?_
    intro i hi
    simp [isValidLandmark]

theorem foldl_min_le_init (xs : List ℚ) (s : ℚ) : xs.foldl min s ≤ s := by
  induction xs generalizing s with
  | nil => exact le_refl s
  | cons a xs ih =>
    rw [List.foldl_cons]
    exact le_trans (ih (min s a)) (min_le_left s a)

theorem foldl_min_le_mem (xs : List ℚ) (s x : ℚ) (hx : x ∈ xs) : xs.foldl min s ≤ x := by
  induction xs generalizing s with
  | nil => simp at hx
  | cons a xs ih =>
    rw [List.foldl_cons]
    rcases List.mem_cons.mp hx with h | h
    · subst h
      exact le_trans (foldl_min_le_init xs (min s x)) (min_le_right s x)
    · exact ih (min s a) h

theorem foldl_min_mem_or (xs : List ℚ) (s : ℚ) :
    xs.foldl min s = s ∨ xs.foldl min s ∈ xs := by
  induction xs generalizing s with
  | nil => exact Or.inl rfl
  | cons a xs ih =>
    rw [List.foldl_cons]
    rcases ih (min s a) with h | h
    · rcases min_choice s a with hs | hs
      · exact Or.inl (by rw [h, hs])
      · exact Or.inr (by rw [h, hs]; exact List.mem_cons_self a xs)
    · exact Or.inr (List.mem_cons_of_mem a h)

theorem foldl_max_init_le (xs : List ℚ) (s : ℚ) : s ≤ xs.foldl max s := by
  induction xs generalizing s with
  | nil => exact le_refl s
  | cons a xs ih =>
    rw [List.foldl_cons]
    exact le_trans (le_max_left s a) (ih (max s a))

theorem foldl_max_mem_le (xs : List ℚ) (s x : ℚ) (hx : x ∈ xs) : x ≤ xs.foldl max s := by
  induction xs generalizing s with
  | nil => simp at hx
  | cons a xs ih =>
    rw [List.foldl_cons]
    rcases List.mem_cons.mp hx with h | h
    · subst h
      exact le_trans (le_max_right s x) (foldl_max_init_le xs (max s x))
    · exact ih (max s a) h

theorem foldl_max_mem_or (xs : List ℚ) (s : ℚ) :
    xs.foldl max s = s ∨ xs.foldl max s ∈ xs := by
  induction xs generalizing s with
  | nil => exact Or.inl rfl
  | cons a xs ih =>
    rw [List.foldl_cons]
    rcases ih (max s a) with h | h
    · rcases max_choice s a with hs | hs
      · exact Or.inl (by rw [h, hs])
      · exact Or.inr (by rw [h, hs]; exact List.mem_cons_self a xs)
    · exact Or.inr (List.mem_cons_of_mem a h)

theorem foldl_min_attained (xs : List ℚ) (hne : xs ≠ []) (hb : ∀ x ∈ xs, x ≤ 1) :
    ∃ x ∈ xs, x = xs.foldl min 1 := by
  rcases foldl_min_mem_or xs 1 with h | h
  · obtain ⟨x0, hx0⟩ := List.exists_mem_of_ne_nil xs hne
    have h1 := foldl_min_le_mem xs 1 x0 hx0
    have h2 := hb x0 hx0
    exact ⟨x0, hx0, by rw [h]; rw [h] at h1; linarith⟩
  · exact ⟨_, h, rfl⟩

theorem foldl_max_attained (xs : List ℚ) (hne : xs ≠ []) (hb : ∀ x ∈ xs, 0 ≤ x) :
    ∃ x ∈ xs, x = xs.foldl max 0 := by
  rcases foldl_max_mem_or xs 0 with h | h
  · obtain ⟨x0, hx0⟩ := List.exists_mem_of_ne_nil xs hne
    have h1 := foldl_max_mem_le xs 0 x0 hx0
    have h2 := hb x0 hx0
    exact ⟨x0, hx0, by rw [h]; rw [h] at h1; linarith⟩
  · exact ⟨_, h, rfl⟩

/-- Claim C2 (amended): on every nonempty Landmark Frame (coordinates
normalized to [0,1] per the data model) calculateFaceRect returns the
rect whose x/y are the minima of the landmark x/y, whose width/height
span to the maxima, and whose center is the midpoint of the extremes;
the unit-square frame yields exactly the rect {0,0,1,1,0.5,0.5}.  On the
empty frame it does not fail but returns null (no rect) rather than a
zero-size rect at (0,0). -/
theorem calculateFaceRect_spec_amended :
    (∀ landmarks : List Landmark, landmarks ≠ [] →
       (∀ l ∈ landmarks, 0 ≤ l.x ∧ l.x ≤ 1 ∧ 0 ≤ l.y ∧ l.y ≤ 1) →
       ∃ r, calculateFaceRect landmarks = some r ∧
         (∀ l ∈ landmarks, r.x ≤ l.x ∧ l.x ≤ r.x + r.width ∧
            r.y ≤ l.y ∧ l.y ≤ r.y + r.height) ∧
         (∃ l ∈ landmarks, l.x = r.x) ∧ (∃ l ∈ landmarks, l.x = r.x + r.width) ∧
         (∃ l ∈ landmarks, l.y = r.y) ∧ (∃ l ∈ landmarks, l.y = r.y + r.height) ∧
         r.centerX = r.x + r.width / 2 ∧ r.centerY = r.y + r.height / 2) ∧
    calculateFaceRect [] = none ∧
    calculateFaceRect unitSquareFrame =
      some { x := 0, y := 0, width := 1, height := 1, centerX := 0.5, centerY := 0.5 } := by
  refine ⟨?_, by norm_num [calculateFaceRect], ?_⟩
  · intro L hne hb
    have hlen : ¬ L.length = 0 := by simpa [List.length_eq_zero] using hne
    have ex : L.foldl (fun acc l => min acc l.x) 1 = (L.map Landmark.x).foldl min 1 :=
      (List.foldl_map Landmark.x min L 1).symm
    have ey : L.foldl (fun acc l => min acc l.y) 1 = (L.map Landmark.y).foldl min 1 :=
      (List.foldl_map Landmark.y min L 1).symm
    have fx : L.foldl (fun acc l => max acc l.x) 0 = (L.map Landmark.x).foldl max 0 :=
      (List.foldl_map Landmark.x max L 0).symm
    have fy : L.foldl (fun acc l => max acc l.y) 0 = (L.map Landmark.y).foldl max 0 :=
      (List.foldl_map Landmark.y max L 0).symm
    have hmapnex : L.map Landmark.x ≠ [] := by simpa using hne
    have hmapney : L.map Landmark.y ≠ [] := by simpa using hne
    have hbx1 : ∀ v ∈ L.map Landmark.x, v ≤ 1 := by
      intro v hv
      obtain ⟨l, hl, rfl⟩ := List.mem_map.mp hv
      exact (hb l hl).2.1
    have hbx0 : ∀ v ∈ L.map Landmark.x, 0 ≤ v := by
      intro v hv
      obtain ⟨l, hl, rfl⟩ := List.mem_map.mp hv
      exact (hb l hl).1
    have hby1 : ∀ v ∈ L.map Landmark.y, v ≤ 1 := by
      intro v hv
      obtain ⟨l, hl, rfl⟩ := List.mem_map.mp hv
      exact (hb l hl).2.2.2
    have hby0 : ∀ v ∈ L.map Landmark.y, 0 ≤ v := by
      intro v hv
      obtain ⟨l, hl, rfl⟩ := List.mem_map.mp hv
      exact (hb l hl).2.2.1
    refine ⟨{ x := (L.map Landmark.x).foldl min 1, y := (L.map Landmark.y).foldl min 1,
              width := (L.map Landmark.x).foldl max 0 - (L.map Landmark.x).foldl min 1,
              height := (L.map Landmark.y).foldl max 0 - (L.map Landmark.y).foldl min 1,
              centerX := ((L.map Landmark.x).foldl min 1 + (L.map Landmark.x).foldl max 0) / 2,
              centerY := ((L.map Landmark.y).foldl min 1 + (L.map Landmark.y).foldl max 0) / 2 },
            ?_, ?_, ?_, ?_, ?_, ?_, by dsimp only; ring, by dsimp only; ring⟩
    · rw [calculateFaceRect, if_neg hlen]
      simp only [ex, ey, fx, fy]
    · intro l hl
      have hx1 := foldl_min_le_mem (L.map Landmark.x) 1 l.x (List.mem_map_of_mem Landmark.x hl)
      have hx2 := foldl_max_mem_le (L.map Landmark.x) 0 l.x (List.mem_map_of_mem Landmark.x hl)
      have hy1 := foldl_min_le_mem (L.map Landmark.y) 1 l.y (List.mem_map_of_mem Landmark.y hl)
      have hy2 := foldl_max_mem_le (L.map Landmark.y) 0 l.y (List.mem_map_of_mem Landmark.y hl)
      refine ⟨hx1, ?_, hy1, ?_⟩ <;> dsimp only <;> linarith
    · obtain ⟨v, hv, hvx⟩ := foldl_min_attained _ hmapnex hbx1
      obtain ⟨l, hl, rfl⟩ := List.mem_map.mp hv
      exact ⟨l, hl, hvx⟩
    · obtain ⟨v, hv, hvx⟩ := foldl_max_attained _ hmapnex hbx0
      obtain ⟨l, hl, rfl⟩ := List.mem_map.mp hv
      exact ⟨l, hl, by dsimp only; linarith⟩
    · obtain ⟨v, hv, hvx⟩ := foldl_min_attained _ hmapney hby1
      obtain ⟨l, hl, rfl⟩ := List.mem_map.mp hv
      exact ⟨l, hl, hvx⟩
    · obtain ⟨v, hv, hvx⟩ := foldl_max_attained _ hmapney hby0
      obtain ⟨l, hl, rfl⟩ := List.mem_map.mp hv
      exact ⟨l, hl, by dsimp only; linarith⟩
  · norm_num [calculateFaceRect, unitSquareFrame, List.foldl_cons, List.foldl_nil,
      min_def, max_def]

/-- Witness for C2 at a concrete input: the unit-square frame satisfies
the amended bounding-rect characterization. -/
theorem calculateFaceRect_spec_inst : calculateFaceRect unitSquareFrame ≠ none := by
  have h := calculateFaceRect_spec_amended.1 unitSquareFrame (by simp [unitSquareFrame]) ?_
  · obtain ⟨r, hr, _⟩ := h
    rw [hr]
    simp
  · intro l hl
    simp only [unitSquareFrame, List.mem_cons, List.not_mem_nil, or_false] at hl
    rcases hl with rfl | rfl | rfl | rfl | rfl <;> norm_num

/-- Counterexample for C2 as stated: on the empty frame the source returns
null, not a zero-size rect at (0,0). -/
theorem calculateFaceRect_empty_cex :
    calculateFaceRect ([] : List Landmark) = none ∧
    calculateFaceRect ([] : List Landmark) ≠
      some { x := 0, y := 0, width := 0, height := 0, centerX := 0, centerY := 0 } := by
  constructor
  · norm_num [calculateFaceRect]
  · norm_num [calculateFaceRect]
    intro h
    exact Option.noConfusion h

theorem calculateHeadPose_eq (leftEye rightEye nose : Landmark) :
    calculateHeadPose ⟨some leftEye, some rightEye, some nose⟩ =
      { pitch := atan2 ((nose.y - (leftEye.y + rightEye.y) / 2 : ℚ) : ℝ) 0.1,
        yaw := atan2 ((nose.x - (leftEye.x + rightEye.x) / 2 : ℚ) : ℝ) 0.1,
        roll := atan2 ((rightEye.y - leftEye.y : ℚ) : ℝ)
          ((rightEye.x - leftEye.x : ℚ) : ℝ) } := rfl

/-- Claim C8 (amended): calculateHeadPose returns zeros when any of the
three inputs is absent; otherwise roll = atan2 of the eye deltas and
yaw/pitch = atan2 of the nose offset from the eye center against the
fixed constant 0.1.  A nose exactly at eye-center x gives yaw = 0, and
level eyes give roll = 0 provided the right eye lies to the right of the
left eye (with the x order reversed the same formula gives pi instead). -/
theorem calculateHeadPose_spec_amended :
    (∀ k : KeyLandmarks,
       k.leftEyeCenter = none ∨ k.rightEyeCenter = none ∨ k.noseTip = none →
       calculateHeadPose k = { pitch := 0, yaw := 0, roll := 0 }) ∧
    (∀ leftEye rightEye nose : Landmark,
       calculateHeadPose ⟨some leftEye, some rightEye, some nose⟩ =
         { pitch := atan2 ((nose.y - (leftEye.y + rightEye.y) / 2 : ℚ) : ℝ) 0.1,
           yaw := atan2 ((nose.x - (leftEye.x + rightEye.x) / 2 : ℚ) : ℝ) 0.1,
           roll := atan2 ((rightEye.y - leftEye.y : ℚ) : ℝ)
             ((rightEye.x - leftEye.x : ℚ) : ℝ) }) ∧
    (∀ leftEye rightEye nose : Landmark, leftEye.y = rightEye.y → leftEye.x < rightEye.x →
       (calculateHeadPose ⟨some leftEye, some rightEye, some nose⟩).roll = 0) ∧
    (∀ leftEye rightEye nose : Landmark, nose.x = (leftEye.x + rightEye.x) / 2 →
       (calculateHeadPose ⟨some leftEye, some rightEye, some nose⟩).yaw = 0) := by
  refine ⟨?_, calculateHeadPose_eq, ?_, ?_⟩
  · intro k h
    obtain ⟨l, r, n⟩ := k
    cases l <;> cases r <;> cases n <;> simp_all [calculateHeadPose]
  · intro leftEye rightEye nose hy hx
    have h0 : ((rightEye.y - leftEye.y : ℚ) : ℝ) = 0 := by
      rw [hy, sub_self, Rat.cast_zero]
    have hpos : (0 : ℝ) < ((rightEye.x - leftEye.x : ℚ) : ℝ) := by
      have h := sub_pos.mpr hx
      exact_mod_cast h
    rw [calculateHeadPose_eq]
    dsimp only
    rw [h0]
    exact atan2_zero_of_pos hpos
  · intro leftEye rightEye nose hn
    have h0 : ((nose.x - (leftEye.x + rightEye.x) / 2 : ℚ) : ℝ) = 0 := by
      rw [hn, sub_self, Rat.cast_zero]
    rw [calculateHeadPose_eq]
    dsimp only
    rw [h0]
    exact atan2_zero_of_pos (by norm_num)

/-- Witness for C8 at concrete inputs: absent landmarks give zeros; level
eyes in the normal orientation give roll 0; a centered nose gives yaw 0. -/
theorem calculateHeadPose_spec_inst :
    calculateHeadPose ⟨none, none, none⟩ = { pitch := 0, yaw := 0, roll := 0 } ∧
    (calculateHeadPose ⟨some ⟨0.4, 0.5, none⟩, some ⟨0.6, 0.5, none⟩,
       some ⟨0.5, 0.4, none⟩⟩).roll = 0 ∧
    (calculateHeadPose ⟨some ⟨0.4, 0.5, none⟩, some ⟨0.6, 0.5, none⟩,
       some ⟨0.5, 0.4, none⟩⟩).yaw = 0 := by
  refine ⟨calculateHeadPose_spec_amended.1 _ (Or.inl rfl),
    calculateHeadPose_spec_amended.2.2.1 _ _ _ rfl (by norm_num),
    calculateHeadPose_spec_amended.2.2.2 _ _ _ (by norm_num)⟩

/-- Counterexample for C8 as stated: a frame with level eyes but the right
eye to the LEFT of the left eye (mirrored order) has roll = pi, not 0. -/
theorem calculateHeadPose_roll_cex :
    (calculateHeadPose ⟨some ⟨0.6, 0.5, none⟩, some ⟨0.4, 0.5, none⟩,
       some ⟨0.5, 0.5, none⟩⟩).roll ≠ 0 := by
  rw [calculateHeadPose_eq]
  show atan2 ((0.5 - 0.5 : ℚ) : ℝ) ((0.4 - 0.6 : ℚ) : ℝ) ≠ 0
  have e1 : ((0.5 - 0.5 : ℚ) : ℝ) = 0 := by norm_num
  have e2 : ((0.4 - 0.6 : ℚ) : ℝ) < 0 := by norm_num
  rw [e1, atan2_zero_of_neg e2]
  exact Real.pi_ne_zero

theorem eyeFrame_lookup_33 (a b : Landmark) : (List.replicate 263 a ++ [b])[33]? = some a := by
  have h : (33 : ℕ) < (List.replicate 263 a).length := by
    rw [List.length_replicate]; norm_num
  rw [List.getElem?_append_left h, List.getElem?_replicate]
  norm_num

theorem eyeFrame_lookup_263 (a b : Landmark) : (List.replicate 263 a ++ [b])[263]? = some b := by
  have h : (List.replicate 263 a).length ≤ 263 := by rw [List.length_replicate]
  rw [List.getElem?_append_right h, List.length_replicate]
  simp only [Nat.sub_self, List.getElem?_cons_zero]

theorem updateGlasses3D_eq (landmarks : List Landmark) (p : OverlayParams) (cw ch : ℚ)
    (leftEye rightEye : Landmark) (h33 : landmarks[33]? = some leftEye)
    (h263 : landmarks[263]? = some rightEye) :
    updateGlasses3D landmarks p cw ch =
      some { posX := ((normalizedToWorld leftEye cw ch).x +
                 (normalizedToWorld rightEye cw ch).x) / 2,
             posY := ((normalizedToWorld leftEye cw ch).y +
                 (normalizedToWorld rightEye cw ch).y) / 2 + p.heightOffset * 0.001,
             posZ := 0,
             rotZ := atan2
               (((normalizedToWorld rightEye cw ch).y -
                  (normalizedToWorld leftEye cw ch).y : ℚ) : ℝ)
               (((normalizedToWorld rightEye cw ch).x -
                  (normalizedToWorld leftEye cw ch).x : ℚ) : ℝ),
             scale := |(normalizedToWorld rightEye cw ch).x -
                 (normalizedToWorld leftEye cw ch).x| * 0.8 * p.scale * p.width } := by
  simp only [updateGlasses3D, h33, h263]

theorem updateGlassesPNG_eq (landmarks : List Landmark) (scale iw ih cw ch : ℚ)
    (leftEye rightEye : Landmark) (h33 : landmarks[33]? = some leftEye)
    (h263 : landmarks[263]? = some rightEye) :
    updateGlassesPNG landmarks scale iw ih cw ch =
      some { dx := ((((normalizedToWorld leftEye cw ch).x +
                 (normalizedToWorld rightEye cw ch).x) / 2 + cw / 2 : ℚ) : ℝ) -
               specEyeDistanceWorld leftEye rightEye cw ch * 2.5 * (scale : ℝ) / 2,
             dy := ((((normalizedToWorld leftEye cw ch).y +
                 (normalizedToWorld rightEye cw ch).y) / 2 + ch / 2 : ℚ) : ℝ) -
               ((ih / iw : ℚ) : ℝ) *
                 (specEyeDistanceWorld leftEye rightEye cw ch * 2.5 * (scale : ℝ)) / 2,
             dw := specEyeDistanceWorld leftEye rightEye cw ch * 2.5 * (scale : ℝ),
             dh := ((ih / iw : ℚ) : ℝ) *
               (specEyeDistanceWorld leftEye rightEye cw ch * 2.5 * (scale : ℝ)) } := by
  simp only [updateGlassesPNG, h33, h263, specEyeDistanceWorld]

/-- Claim C4: in the 3D-model path each eye landmark is converted by
worldX = (x - 0.5) * frustumSize * aspect and worldY = -(y - 0.5) *
frustumSize with frustumSize = 2 and aspect = canvasWidth / canvasHeight;
the written position is the midpoint of the two converted eye points with
heightOffset * 0.001 added to the y coordinate only (the z slot is set to
the constant 0), and the in-plane rotation is atan2 of the deltas of the
two converted eye points. -/
theorem updateGlasses3D_transform_spec :
    (∀ (landmark : Landmark) (cw ch : ℚ),
       normalizedToWorld landmark cw ch =
         { x := (landmark.x - 0.5) * 2 * (cw / ch), y := -(landmark.y - 0.5) * 2,
           z := landmark.z.getD 0 }) ∧
    (∀ (landmarks : List Landmark) (p : OverlayParams) (cw ch : ℚ)
       (leftEye rightEye : Landmark),
       landmarks[33]? = some leftEye → landmarks[263]? = some rightEye →
       updateGlasses3D landmarks p cw ch =
         some { posX := ((normalizedToWorld leftEye cw ch).x +
                    (normalizedToWorld rightEye cw ch).x) / 2,
                posY := ((normalizedToWorld leftEye cw ch).y +
                    (normalizedToWorld rightEye cw ch).y) / 2 + p.heightOffset * 0.001,
                posZ := 0,
                rotZ := atan2
                  (((normalizedToWorld rightEye cw ch).y -
                     (normalizedToWorld leftEye cw ch).y : ℚ) : ℝ)
                  (((normalizedToWorld rightEye cw ch).x -
                     (normalizedToWorld leftEye cw ch).x : ℚ) : ℝ),
                scale := |(normalizedToWorld rightEye cw ch).x -
                    (normalizedToWorld leftEye cw ch).x| * 0.8 * p.scale * p.width }) := by
  exact ⟨fun landmark cw ch => rfl, updateGlasses3D_eq⟩

/-- Witness for C4 at a concrete input: the spec scenario frame with eyes
at (0.4, 0.5) and (0.6, 0.5) on a 100 x 100 viewport and default
parameters. -/
theorem updateGlasses3D_transform_inst :
    updateGlasses3D egFrame ⟨1, 1, 0⟩ 100 100 =
      some { posX := ((normalizedToWorld egL 100 100).x +
                 (normalizedToWorld egR 100 100).x) / 2,
             posY := ((normalizedToWorld egL 100 100).y +
                 (normalizedToWorld egR 100 100).y) / 2 + (0 : ℚ) * 0.001,
             posZ := 0,
             rotZ := atan2
               (((normalizedToWorld egR 100 100).y - (normalizedToWorld egL 100 100).y : ℚ) : ℝ)
               (((normalizedToWorld egR 100 100).x - (normalizedToWorld egL 100 100).x : ℚ) : ℝ),
             scale := |(normalizedToWorld egR 100 100).x -
                 (normalizedToWorld egL 100 100).x| * 0.8 * 1 * 1 } := by
  exact updateGlasses3D_transform_spec.2 egFrame ⟨1, 1, 0⟩ 100 100 egL egR
    (eyeFrame_lookup_33 egL egR) (eyeFrame_lookup_263 egL egR)

/-- Claim C1 (amended): in the 3D path the uniform scale factor equals the
absolute horizontal world-space difference of the two converted eye
points (|delta worldX|, not their Euclidean distance) times the fixed
base factor 0.8, times the scale parameter, times the width parameter;
in the spec's end-to-end scenario (eyes at (0.4,0.5) and (0.6,0.5) on a
100 x 100 viewport, scale = width = 1, heightOffset = 0, where the eyes
are level so the two distance notions agree) the rotation is 0 and the
scale equals the world-space eye distance times 0.8. -/
theorem updateGlasses3D_scale_amended :
    (∀ (landmarks : List Landmark) (p : OverlayParams) (cw ch : ℚ)
       (leftEye rightEye : Landmark),
       landmarks[33]? = some leftEye → landmarks[263]? = some rightEye →
       (updateGlasses3D landmarks p cw ch).isSome = true ∧
       mtScale (updateGlasses3D landmarks p cw ch) =
         |(normalizedToWorld rightEye cw ch).x - (normalizedToWorld leftEye cw ch).x| *
           0.8 * p.scale * p.width) ∧
    ((updateGlasses3D egFrame ⟨1, 1, 0⟩ 100 100).isSome = true ∧
     mtRot (updateGlasses3D egFrame ⟨1, 1, 0⟩ 100 100) = 0 ∧
     (mtScale (updateGlasses3D egFrame ⟨1, 1, 0⟩ 100 100) : ℝ) =
       specEyeDistanceWorld egL egR 100 100 * 0.8) := by
  constructor
  · intro landmarks p cw ch leftEye rightEye h33 h263
    rw [updateGlasses3D_eq landmarks p cw ch leftEye rightEye h33 h263]
    exact ⟨rfl, rfl⟩
  · have heq := updateGlasses3D_eq egFrame ⟨1, 1, 0⟩ 100 100 egL egR
      (eyeFrame_lookup_33 egL egR) (eyeFrame_lookup_263 egL egR)
    have hx : (normalizedToWorld egR 100 100).x - (normalizedToWorld egL 100 100).x = 2/5 := by
      norm_num [normalizedToWorld, egL, egR]
    have hy : (normalizedToWorld egR 100 100).y - (normalizedToWorld egL 100 100).y = 0 := by
      norm_num [normalizedToWorld, egL, egR]
    rw [heq]
    refine ⟨rfl, ?_, ?_⟩
    · show atan2
        (((normalizedToWorld egR 100 100).y - (normalizedToWorld egL 100 100).y : ℚ) : ℝ)
        (((normalizedToWorld egR 100 100).x - (normalizedToWorld egL 100 100).x : ℚ) : ℝ) = 0
      rw [hy, hx, Rat.cast_zero]
      exact atan2_zero_of_pos (by norm_num)
    · show ((|(normalizedToWorld egR 100 100).x - (normalizedToWorld egL 100 100).x| *
        0.8 * 1 * 1 : ℚ) : ℝ) = specEyeDistanceWorld egL egR 100 100 * 0.8
      rw [specEyeDistanceWorld, hx, hy]
      rw [show ((2/5 : ℚ) : ℝ) = 2/5 from by norm_num, Rat.cast_zero]
      rw [show (2/5 : ℝ) ^ 2 + (0 : ℝ) ^ 2 = (2/5) ^ 2 from by ring]
      rw [Real.sqrt_sq (by norm_num : (0:ℝ) ≤ 2/5)]
      rw [abs_of_nonneg (by norm_num : (0:ℚ) ≤ 2/5)]
      norm_num

/-- Witness for C1 at a concrete input: the general scale formula
instantiated on the end-to-end scenario frame. -/
theorem updateGlasses3D_scale_amended_inst :
    mtScale (updateGlasses3D egFrame ⟨1, 1, 0⟩ 100 100) =
      |(normalizedToWorld egR 100 100).x - (normalizedToWorld egL 100 100).x| *
        0.8 * 1 * 1 := by
  exact (updateGlasses3D_scale_amended.1 egFrame ⟨1, 1, 0⟩ 100 100 egL egR
    (eyeFrame_lookup_33 egL egR) (eyeFrame_lookup_263 egL egR)).2

/-- Counterexample for C1 as stated: with eyes on the image diagonal the
produced scale is 1.6 (from |delta worldX| = 2) while the claimed formula
(Euclidean distance between the converted eye points, times 0.8, times
scale, times width) gives sqrt 8 * 0.8, which differs. -/
theorem updateGlasses3D_scale_claim_cex :
    (updateGlasses3D diagFrame ⟨1, 1, 0⟩ 100 100).isSome = true ∧
    (mtScale (updateGlasses3D diagFrame ⟨1, 1, 0⟩ 100 100) : ℝ) ≠
      specEyeDistanceWorld diagL diagR 100 100 * 0.8 * 1 * 1 := by
  have heq := updateGlasses3D_eq diagFrame ⟨1, 1, 0⟩ 100 100 diagL diagR
    (eyeFrame_lookup_33 diagL diagR) (eyeFrame_lookup_263 diagL diagR)
  have hx : (normalizedToWorld diagR 100 100).x - (normalizedToWorld diagL 100 100).x = 2 := by
    norm_num [normalizedToWorld, diagL, diagR]
  have hy : (normalizedToWorld diagR 100 100).y - (normalizedToWorld diagL 100 100).y = -2 := by
    norm_num [normalizedToWorld, diagL, diagR]
  rw [heq]
  refine ⟨rfl, ?_⟩
  show ((|(normalizedToWorld diagR 100 100).x - (normalizedToWorld diagL 100 100).x| *
      0.8 * 1 * 1 : ℚ) : ℝ) ≠ specEyeDistanceWorld diagL diagR 100 100 * 0.8 * 1 * 1
  rw [specEyeDistanceWorld, hx, hy]
  rw [show ((2 : ℚ) : ℝ) = 2 from by norm_num, show ((-2 : ℚ) : ℝ) = -2 from by norm_num]
  rw [show (2 : ℝ) ^ 2 + (-2 : ℝ) ^ 2 = 8 from by ring]
  rw [show |(2 : ℚ)| = 2 from by norm_num]
  intro h
  have h8 : Real.sqrt 8 = 2 := by
    norm_num at h
    linarith
  have h3 := Real.sq_sqrt (by norm_num : (0:ℝ) ≤ 8)
  rw [h8] at h3
  norm_num at h3

/-- Claim C5 (amended): in the PNG path, given both eye landmarks, the
drawn rectangle's width is the Euclidean world-space eye distance times
2.5 times the scale parameter, its height follows the PNG image's own
height/width ratio, and it is an axis-aligned rectangle (ctx.drawImage
applies no rotation) centered at the WORLD-SPACE eye midpoint shifted by
half the canvas size in each direction, which is not in general the eye
midpoint expressed in pixel coordinates. -/
theorem updateGlassesPNG_spec_amended :
    ∀ (landmarks : List Landmark) (scale iw ih cw ch : ℚ) (leftEye rightEye : Landmark),
      landmarks[33]? = some leftEye → landmarks[263]? = some rightEye →
      (updateGlassesPNG landmarks scale iw ih cw ch).isSome = true ∧
      ∀ d : PngDraw, updateGlassesPNG landmarks scale iw ih cw ch = some d →
        d.dw = specEyeDistanceWorld leftEye rightEye cw ch * 2.5 * (scale : ℝ) ∧
        d.dh = ((ih / iw : ℚ) : ℝ) * d.dw ∧
        d.dx + d.dw / 2 = ((((normalizedToWorld leftEye cw ch).x +
            (normalizedToWorld rightEye cw ch).x) / 2 + cw / 2 : ℚ) : ℝ) ∧
        d.dy + d.dh / 2 = ((((normalizedToWorld leftEye cw ch).y +
            (normalizedToWorld rightEye cw ch).y) / 2 + ch / 2 : ℚ) : ℝ) := by
  intro landmarks scale iw ih cw ch leftEye rightEye h33 h263
  rw [updateGlassesPNG_eq landmarks scale iw ih cw ch leftEye rightEye h33 h263]
  refine ⟨rfl, ?_⟩
  intro d hd
  obtain rfl : _ = d := Option.some.inj hd
  refine ⟨rfl, rfl, ?_, ?_⟩
  · show (((((normalizedToWorld leftEye cw ch).x +
        (normalizedToWorld rightEye cw ch).x) / 2 + cw / 2 : ℚ) : ℝ) -
        specEyeDistanceWorld leftEye rightEye cw ch * 2.5 * (scale : ℝ) / 2) +
        specEyeDistanceWorld leftEye rightEye cw ch * 2.5 * (scale : ℝ) / 2 =
      ((((normalizedToWorld leftEye cw ch).x +
          (normalizedToWorld rightEye cw ch).x) / 2 + cw / 2 : ℚ) : ℝ)
    ring
  · show (((((normalizedToWorld leftEye cw ch).y +
        (normalizedToWorld rightEye cw ch).y) / 2 + ch / 2 : ℚ) : ℝ) -
        ((ih / iw : ℚ) : ℝ) *
          (specEyeDistanceWorld leftEye rightEye cw ch * 2.5 * (scale : ℝ)) / 2) +
        ((ih / iw : ℚ) : ℝ) *
          (specEyeDistanceWorld leftEye rightEye cw ch * 2.5 * (scale : ℝ)) / 2 =
      ((((normalizedToWorld leftEye cw ch).y +
          (normalizedToWorld rightEye cw ch).y) / 2 + ch / 2 : ℚ) : ℝ)
    ring

/-- Witness for C5 at a concrete input: the PNG path draws a rectangle for
the concrete frame. -/
theorem updateGlassesPNG_spec_inst :
    (updateGlassesPNG pngFrame 1 100 100 100 100).isSome = true := by
  exact (updateGlassesPNG_spec_amended pngFrame 1 100 100 100 100 pngL pngR
    (eyeFrame_lookup_33 pngL pngR) (eyeFrame_lookup_263 pngL pngR)).1

/-- Counterexample for C5 as stated: with eyes at x = 0.5 and x = 0.9 on a
100 x 100 canvas, the drawn rectangle's center x is 50.4 (world midpoint
0.4 plus 50), not the pixel-space eye midpoint 70. -/
theorem updateGlassesPNG_center_cex :
    (updateGlassesPNG pngFrame 1 100 100 100 100).isSome = true ∧
    pngCenterX (updateGlassesPNG pngFrame 1 100 100 100 100) ≠
      ((specPixelMidX pngL pngR 100 : ℚ) : ℝ) := by
  have heq := updateGlassesPNG_eq pngFrame 1 100 100 100 100 pngL pngR
    (eyeFrame_lookup_33 pngL pngR) (eyeFrame_lookup_263 pngL pngR)
  have hc : ((normalizedToWorld pngL 100 100).x +
      (normalizedToWorld pngR 100 100).x) / 2 + 100 / 2 = 252 / 5 := by
    norm_num [normalizedToWorld, pngL, pngR]
  have hp : specPixelMidX pngL pngR 100 = 70 := by
    norm_num [specPixelMidX, pngL, pngR]
  rw [heq]
  refine ⟨rfl, ?_⟩
  simp only [pngCenterX]
  rw [hc, hp]
  rw [sub_add_cancel]
  intro h
  norm_num at h

/-- Claim C6: when either required eye landmark (33 or 263) is absent,
neither overlay path produces a placement: the 3D path leaves the model
state (its transform and visibility) exactly as it was, the PNG path
draws nothing on the cleared canvas (hidden), and a null detection result
(a no-face cycle) returns from onFaceDetected immediately, leaving the
stored previousLandmarks untouched and calling updateGlasses not at all,
on every cycle and without error. -/
theorem missingEye_noUpdate_spec :
    ∀ (st : ModelState) (landmarks : List Landmark) (p : OverlayParams)
      (scale iw ih cw ch : ℚ) (smoothingEnabled : Bool) (prev : Option (List Landmark)),
      landmarks[33]? = none ∨ landmarks[263]? = none →
      updateGlasses3D landmarks p cw ch = none ∧
      stepGlassesModel st landmarks p cw ch = st ∧
      updateGlassesPNG landmarks scale iw ih cw ch = none ∧
      onFaceDetectedStep smoothingEnabled prev none = (prev, none) := by
  intro st landmarks p scale iw ih cw ch smoothingEnabled prev h
  have h3 : updateGlasses3D landmarks p cw ch = none := by
    rcases h with h | h
    · simp only [updateGlasses3D, h]
    · cases h33 : landmarks[33]? <;> simp only [updateGlasses3D, h33, h]
  have hpng : updateGlassesPNG landmarks scale iw ih cw ch = none := by
    rcases h with h | h
    · simp only [updateGlassesPNG, h]
    · cases h33 : landmarks[33]? <;> simp only [updateGlassesPNG, h33, h]
  refine ⟨h3, ?_, hpng, rfl⟩
  simp only [stepGlassesModel, h3]

/-- Witness for C6 at a concrete input: an empty frame (both eyes absent)
leaves a concrete model state unchanged, and a null result leaves the
stored landmarks unchanged. -/
theorem missingEye_noUpdate_inst :
    stepGlassesModel ⟨⟨0, 0, 0, 0, 0⟩, false⟩ [] ⟨1, 1, 0⟩ 100 100 =
      ⟨⟨0, 0, 0, 0, 0⟩, false⟩ ∧
    onFaceDetectedStep true (some []) none = (some [], none) := by
  have h := missingEye_noUpdate_spec ⟨⟨0, 0, 0, 0, 0⟩, false⟩ [] ⟨1, 1, 0⟩ 1 100 100 100 100
    true (some []) (Or.inl (by simp))
  exact ⟨h.2.1, h.2.2.2⟩
